import Mathlib

/-!
Shallow embedding of the OpenEngine geometry subsystem:
`src/Math/Vector.h` (fixed-size math vector) and
`src/Geometry/GeometrySet.h` (geometry container with a countdown iterator
and a two-level bounds-checked accessor facade), compiled in the OE_SAFE
(safety checks enabled) configuration.

Modelling conventions:
* C++ `float` values stored in buffers are modelled as exact rationals (ℚ);
  the real-valued operations `GetLength` / `Normalize` are modelled over ℝ,
  with `Real.sqrt` standing for `sqrt`.
* Heap buffers are modelled as flat memories, total functions `Nat → ℚ`
  (resp. `Nat → Int`); the lengths passed to `new[]` at construction are
  recorded in the structure.
* Raw `float*` cursors into a buffer are modelled as offsets (`Nat`) from
  the start of that buffer.
* C++ exceptions are modelled with `Except`: a thrown exception is an
  `.error` value.  In every modelled operation except the sub-point
  assignment `Accessor1::operator=`, the source performs all checks before
  any mutation, so an error faithfully corresponds to an unchanged state;
  `operator=` interleaves buffer writes with checked reads and is therefore
  modelled as a (state × optional error) pair.
-/

namespace OpenEngine

/-- Error conditions raised by the subsystem (`Math/Exceptions.h`,
`Core/Exceptions.h`): `IndexOutOfBounds(i, lower, upper)`, `DivisionByZero`,
`ArithmeticException(msg)`, and the plain `Core::Exception`s thrown on
invalid iterator use, modelled as `invalidIterator msg`. -/
inductive OEError where
  | indexOutOfBounds (i lower upper : Int)
  | divisionByZero
  | arithmeticException (msg : String)
  | invalidIterator (msg : String)
deriving DecidableEq, Repr

namespace Math

/-- `Vector<N,T>` (Vector.h:31-35): the component array `T elm[N]`,
modelled as a function from `Fin N`. -/
abbrev Vec (N : Nat) (T : Type) := Fin N → T

/-- `Vector<N,T>::operator[]` / `Get` (Vector.h:110-116 and 476-482):
checked element access.  The index is a C `int`; the OE_SAFE check is
`i < 0 || i >= N`, raising `IndexOutOfBounds(i, 0, N)`. -/
def vecGet {N : Nat} {T : Type} (v : Vec N T) (i : Int) : Except OEError T :=
  if h : i < 0 ∨ (N : Int) ≤ i then .error (.indexOutOfBounds i 0 N)
  else .ok (v ⟨i.toNat, by omega⟩)

/-- `Vector<N,T>::operator/` (Vector.h:216-225): checked scalar division;
throws `DivisionByZero` when `s == 0`, otherwise returns a fresh
`Vector<N,float>` with components `(float)elm[i] / s` (the float cast is
the identity in the exact ℚ model). -/
def vecDiv {N : Nat} (v : Vec N ℚ) (s : ℚ) : Except OEError (Vec N ℚ) :=
  if s = 0 then .error .divisionByZero
  else .ok fun i => v i / s

/-- `Vector<N,T>::operator/=` (Vector.h:306-313): checked destructive scalar
division (`elm[i] /= s` for every `i`); the mutated receiver is returned as
the `.ok` value. -/
def vecDivAssign {N : Nat} (v : Vec N ℚ) (s : ℚ) : Except OEError (Vec N ℚ) :=
  if s = 0 then .error .divisionByZero
  else .ok fun i => v i / s

/-- Dot product `Vector<N,T>::operator*(Vector)` (Vector.h:244-249). -/
noncomputable def dotProd {N : Nat} (u v : Vec N ℝ) : ℝ := ∑ i, u i * v i

/-- `Vector<N,T>::GetLength` (Vector.h:329-331):
`sqrt((*this) * (*this))`. -/
noncomputable def GetLength {N : Nat} (v : Vec N ℝ) : ℝ :=
  Real.sqrt (dotProd v v)

/-- `Vector<N,T>::Normalize` (Vector.h:347-356): computes
`norm = GetLength()`; with OE_SAFE throws `ArithmeticException` when
`norm == 0` (before touching any component); otherwise divides each
component that is not zero by `norm`, leaving zero components untouched. -/
noncomputable def Normalize {N : Nat} (v : Vec N ℝ) : Except OEError (Vec N ℝ) :=
  let norm := GetLength v
  if norm = 0 then
    .error (.arithmeticException "Can not normalize the zero vector.")
  else
    .ok fun i => if v i = 0 then v i else v i / norm

end Math

namespace Geometry

open Math

/-- `GeometrySet<Dimension,Shape>` (GeometrySet.h:53-248).  The constructor
`GeometrySet(int size)` (lines 203-208) allocates `indx = new int[size]`,
`vert = new float[size * Dimension * Shape]` and
`texc = new float[size * 2 * Shape]`; the three buffers are flat memories
and the allocated lengths are recorded in the `...Alloc` fields.  The
allocated memory is not initialised, which is modelled by the arbitrary
initial buffer contents passed to `create`. -/
structure GeometrySet (Dimension Shape : Nat) where
  size : Nat
  indx : Nat → Int
  vert : Nat → ℚ
  texc : Nat → ℚ
  indxAlloc : Nat
  vertAlloc : Nat
  texcAlloc : Nat

/-- The constructor `GeometrySet(int size)` (GeometrySet.h:203-208). -/
def GeometrySet.create (Dimension Shape : Nat) (size : Nat)
    (indx0 : Nat → Int) (vert0 texc0 : Nat → ℚ) : GeometrySet Dimension Shape :=
  { size := size
    indx := indx0
    vert := vert0
    texc := texc0
    indxAlloc := size
    vertAlloc := size * Dimension * Shape
    texcAlloc := size * 2 * Shape }

/-- `GeometrySet::GetSize` (GeometrySet.h:224). -/
def GeometrySet.GetSize {D S : Nat} (g : GeometrySet D S) : Nat := g.size

/-- `GeometrySet::GetIndxLength` (GeometrySet.h:227). -/
def GeometrySet.GetIndxLength {D S : Nat} (g : GeometrySet D S) : Nat := g.size

/-- `GeometrySet::GetVertLength` (GeometrySet.h:228):
`size * Dimension * Shape`. -/
def GeometrySet.GetVertLength {D S : Nat} (g : GeometrySet D S) : Nat :=
  g.size * D * S

/-- `GeometrySet::GetTexcLength` (GeometrySet.h:230): as written in the
source it returns `size * Dimension * Shape` (not `size * 2 * Shape`). -/
def GeometrySet.GetTexcLength {D S : Nat} (g : GeometrySet D S) : Nat :=
  g.size * D * S

/-- `GeometrySet::Iterator` (GeometrySet.h:78-192): the countdown position
`pos` and the two accessor pointers `mem.vert.p` / `mem.texc.p`, modelled
as offsets into the owning set's `vert` / `texc` buffers. -/
structure Iterator (Dimension Shape : Nat) where
  pos : Nat
  vertP : Nat
  texcP : Nat
deriving DecidableEq, Repr

/-- The public default constructor `Iterator()` (GeometrySet.h:149-152):
`pos = 0`, accessor pointers null (offset 0 in the model; they are never
read, because with OE_SAFE every access checks `pos` first). -/
def Iterator.empty (Dimension Shape : Nat) : Iterator Dimension Shape :=
  ⟨0, 0, 0⟩

/-- `GeometrySet::GetIterator` (GeometrySet.h:221) via the private
constructor `Iterator(GeometrySet&)` (GeometrySet.h:125-129):
`pos = set.size`, `mem.vert.p = set.vert`, `mem.texc.p = set.texc`
(both cursors at the start of their buffers). -/
def GeometrySet.GetIterator {D S : Nat} (g : GeometrySet D S) : Iterator D S :=
  ⟨g.size, 0, 0⟩

/-- `Iterator::HasMore` (GeometrySet.h:177): `return pos > 0;`. -/
def Iterator.HasMore {D S : Nat} (it : Iterator D S) : Bool :=
  decide (0 < it.pos)

/-- `Iterator::Next` (GeometrySet.h:184-191): with OE_SAFE throws when
`pos == 0`; otherwise `--pos` and `mem.vert.p += Dimension * Shape`.  The
texture cursor `mem.texc.p` is not touched. -/
def Iterator.Next {D S : Nat} (it : Iterator D S) :
    Except OEError (Iterator D S) :=
  if it.pos = 0 then
    .error (.invalidIterator "Attempt to advance passed the end of an iterator")
  else
    .ok ⟨it.pos - 1, it.vertP + D * S, it.texcP⟩

/-- `Iterator::operator->` (GeometrySet.h:164-170): with OE_SAFE throws when
`pos == 0`; otherwise exposes `mem`, the pair of the two accessor
cursors. -/
def Iterator.deref {D S : Nat} (it : Iterator D S) :
    Except OEError (Nat × Nat) :=
  if it.pos = 0 then
    .error (.invalidIterator "Attempt to access an invalid iterator")
  else
    .ok (it.vertP, it.texcP)

/-- `Accessor2<T,N,M>::operator[]` (GeometrySet.h:115-121): with OE_SAFE
checks `i >= N` and throws `IndexOutOfBounds(i, 0, N)`; otherwise returns
`Accessor1<T,M>(p + i * M)`, modelled by the resulting base offset. -/
def acc2Sub (N M : Nat) (p : Nat) (i : Nat) : Except OEError Nat :=
  if N ≤ i then .error (.indexOutOfBounds i 0 N)
  else .ok (p + i * M)

/-- `Accessor1<T,N>::operator[]` (GeometrySet.h:95-101): with OE_SAFE checks
`i >= N` and throws `IndexOutOfBounds(i, 0, N)`; otherwise yields the cell
`*(p + i)`, modelled by the resulting flat offset. -/
def acc1Sub (N : Nat) (p : Nat) (i : Nat) : Except OEError Nat :=
  if N ≤ i then .error (.indexOutOfBounds i 0 N)
  else .ok (p + i)

/-- Flat buffer offset of `elm->vert[s][c]`: `operator->`, then
`Accessor2<float,Shape,Dimension>::operator[]`, then
`Accessor1<float,Dimension>::operator[]`. -/
def vertRef {D S : Nat} (it : Iterator D S) (s c : Nat) :
    Except OEError Nat := do
  let m ← it.deref
  let b ← acc2Sub S D m.1 s
  acc1Sub D b c

/-- Flat buffer offset of `elm->texc[s][c]`: `operator->`, then
`Accessor2<float,Shape,2>::operator[]`, then
`Accessor1<float,2>::operator[]`. -/
def texcRef {D S : Nat} (it : Iterator D S) (s c : Nat) :
    Except OEError Nat := do
  let m ← it.deref
  let b ← acc2Sub S 2 m.2 s
  acc1Sub 2 b c

/-- Read `elm->vert[s][c]`. -/
def vertRead {D S : Nat} (g : GeometrySet D S) (it : Iterator D S)
    (s c : Nat) : Except OEError ℚ :=
  (vertRef it s c).map fun idx => g.vert idx

/-- Write `elm->vert[s][c] = x`. -/
def vertWrite {D S : Nat} (g : GeometrySet D S) (it : Iterator D S)
    (s c : Nat) (x : ℚ) : Except OEError (GeometrySet D S) :=
  (vertRef it s c).map fun idx =>
    { g with vert := Function.update g.vert idx x }

/-- Read `elm->texc[s][c]`. -/
def texcRead {D S : Nat} (g : GeometrySet D S) (it : Iterator D S)
    (s c : Nat) : Except OEError ℚ :=
  (texcRef it s c).map fun idx => g.texc idx

/-- Write `elm->texc[s][c] = x`. -/
def texcWrite {D S : Nat} (g : GeometrySet D S) (it : Iterator D S)
    (s c : Nat) (x : ℚ) : Except OEError (GeometrySet D S) :=
  (texcRef it s c).map fun idx =>
    { g with texc := Function.update g.texc idx x }

/-- `Accessor1<T,N>::operator=(const Vector<N,T>&)` (GeometrySet.h:102-106):
`p[0] = v.Get(0); p[1] = v.Get(1); p[2] = v.Get(2);` — always three
positional copies, regardless of `N`.  `Get` is bounds-checked under
OE_SAFE, and the writes preceding a failing `Get` have already happened, so
the model threads the buffer through and reports the exception
separately. -/
def acc1Assign {N : Nat} (buf : Nat → ℚ) (p : Nat) (v : Vec N ℚ) :
    (Nat → ℚ) × Option OEError :=
  match vecGet v 0 with
  | .error e => (buf, some e)
  | .ok x0 =>
    let buf1 := Function.update buf p x0
    match vecGet v 1 with
    | .error e => (buf1, some e)
    | .ok x1 =>
      let buf2 := Function.update buf1 (p + 1) x1
      match vecGet v 2 with
      | .error e => (buf2, some e)
      | .ok x2 => (Function.update buf2 (p + 2) x2, none)

/-- `elm->vert[s] = v`: `operator->`, then `Accessor2::operator[]`, then
`Accessor1::operator=`. -/
def vertSubAssign {D S : Nat} (g : GeometrySet D S) (it : Iterator D S)
    (s : Nat) (v : Vec D ℚ) : GeometrySet D S × Option OEError :=
  match it.deref with
  | .error e => (g, some e)
  | .ok m =>
    match acc2Sub S D m.1 s with
    | .error e => (g, some e)
    | .ok p =>
      let r := acc1Assign g.vert p v
      ({ g with vert := r.1 }, r.2)

/-- Body executions of the iteration idiom
`for (elm = set.GetIterator(); elm.HasMore(); elm.Next())`, recorded as the
vertex-cursor offset at each body execution: while `pos > 0` the body runs
at the current cursor, after which `Next()` decrements `pos` and moves the
cursor by `Dimension * Shape`. -/
def loopVisitsAux (D S : Nat) : Nat → Nat → List Nat
  | 0, _ => []
  | p + 1, off => off :: loopVisitsAux D S p (off + D * S)

/-- Visits of the `HasMore`/`Next` loop started at iterator `it`. -/
def Iterator.loopVisits {D S : Nat} (it : Iterator D S) : List Nat :=
  loopVisitsAux D S it.pos it.vertP

/-- `k` consecutive checked `Next()` calls. -/
def nextN {D S : Nat} : Nat → Iterator D S → Except OEError (Iterator D S)
  | 0, it => .ok it
  | k + 1, it => it.Next.bind (nextN k)


/-- The `GeometrySet<2,3>` write scenario of the test suite
(`tests/GeometrySets.cpp`): a set of two planar triangles; element 0's
three sub-points are written (1,2), (3,4), (5,6) through a fresh iterator,
the iterator is advanced once by `Next()`, and element 1's sub-points are
written (6,5), (4,3), (2,1).  Returns the vertex buffer after the first
six writes together with the vertex buffer after all twelve. -/
def scenario2x3 (i0 : Nat → Int) (v0 t0 : Nat → ℚ) :
    Except OEError ((Nat → ℚ) × (Nat → ℚ)) := do
  let g0 := GeometrySet.create 2 3 2 i0 v0 t0
  let it0 := g0.GetIterator
  let g1 ← vertWrite g0 it0 0 0 1
  let g2 ← vertWrite g1 it0 0 1 2
  let g3 ← vertWrite g2 it0 1 0 3
  let g4 ← vertWrite g3 it0 1 1 4
  let g5 ← vertWrite g4 it0 2 0 5
  let g6 ← vertWrite g5 it0 2 1 6
  let it1 ← it0.Next
  let g7 ← vertWrite g6 it1 0 0 6
  let g8 ← vertWrite g7 it1 0 1 5
  let g9 ← vertWrite g8 it1 1 0 4
  let g10 ← vertWrite g9 it1 1 1 3
  let g11 ← vertWrite g10 it1 2 0 2
  let g12 ← vertWrite g11 it1 2 1 1
  return (g6.vert, g12.vert)

/-- Concrete input for the Dimension = 2 sub-point assignment: a
`GeometrySet<2,3>` of size 1 with zeroed buffers. -/
def dim2Set : GeometrySet 2 3 :=
  GeometrySet.create 2 3 1 (fun _ => 0) (fun _ => 0) (fun _ => 0)

/-- Result of `elm->vert[0] = Vector<2,float>(10, 20)` on a fresh iterator
of `dim2Set`. -/
def dim2Assign : GeometrySet 2 3 × Option OEError :=
  vertSubAssign dim2Set dim2Set.GetIterator 0 ![10, 20]

/-! ### Helper lemmas shared by the claim theorems -/

@[simp]
theorem except_bind_ok {ε α β : Type} (a : α) (f : α → Except ε β) :
    (Except.ok a : Except ε α) >>= f = f a := rfl

@[simp]
theorem except_bind_error {ε α β : Type} (e : ε) (f : α → Except ε β) :
    (Except.error e : Except ε α) >>= f = Except.error e := rfl

@[simp]
theorem except_map_ok {ε α β : Type} (a : α) (f : α → β) :
    (Except.ok a : Except ε α).map f = Except.ok (f a) := rfl

@[simp]
theorem except_map_error {ε α β : Type} (e : ε) (f : α → β) :
    (Except.error e : Except ε α).map f = Except.error e := rfl

theorem deref_ok {D S : Nat} (it : Iterator D S) (h : it.pos ≠ 0) :
    it.deref = .ok (it.vertP, it.texcP) := by
  simp [Iterator.deref, h]

theorem vertRef_ok {D S : Nat} (it : Iterator D S) (h : it.pos ≠ 0)
    (s c : Nat) (hs : s < S) (hc : c < D) :
    vertRef it s c = .ok (it.vertP + s * D + c) := by
  simp [vertRef, deref_ok it h, acc2Sub, acc1Sub,
    Nat.not_le.mpr hs, Nat.not_le.mpr hc]

theorem texcRef_ok {D S : Nat} (it : Iterator D S) (h : it.pos ≠ 0)
    (s c : Nat) (hs : s < S) (hc : c < 2) :
    texcRef it s c = .ok (it.texcP + s * 2 + c) := by
  simp [texcRef, deref_ok it h, acc2Sub, acc1Sub,
    Nat.not_le.mpr hs, Nat.not_le.mpr hc]

theorem loopVisitsAux_length (D S p off : Nat) :
    (loopVisitsAux D S p off).length = p := by
  induction p generalizing off with
  | zero => rfl
  | succ p ih => simp [loopVisitsAux, ih]

theorem loopVisitsAux_eq_range (D S p off : Nat) :
    loopVisitsAux D S p off
      = (List.range p).map (fun k => off + k * (D * S)) := by
  induction p generalizing off with
  | zero => rfl
  | succ p ih =>
    rw [List.range_succ_eq_map]
    simp only [loopVisitsAux, ih, List.map_cons, List.map_map]
    refine congrArg₂ List.cons (by ring) ?_
    refine List.map_congr_left fun k _ => ?_
    simp only [Function.comp_apply, Nat.succ_eq_add_one]
    ring

/-- The loop model agrees with `Next`: while `pos > 0` the body observes the
current cursor and then `Next` succeeds, producing the iterator whose visits
form the tail. -/
theorem loopVisits_step {D S : Nat} (it : Iterator D S) (h : 0 < it.pos) :
    ∃ it2 : Iterator D S, it.Next = .ok it2
      ∧ it.loopVisits = it.vertP :: it2.loopVisits := by
  refine ⟨⟨it.pos - 1, it.vertP + D * S, it.texcP⟩, ?_, ?_⟩
  · simp [Iterator.Next, Nat.pos_iff_ne_zero.mp h]
  · simp only [Iterator.loopVisits]
    obtain ⟨p, hp⟩ : ∃ p, it.pos = p + 1 :=
      ⟨it.pos - 1, by omega⟩
    rw [hp]
    simp [loopVisitsAux]

theorem nextN_ok {D S : Nat} (k : Nat) (it : Iterator D S) (h : k ≤ it.pos) :
    nextN k it = .ok ⟨it.pos - k, it.vertP + k * (D * S), it.texcP⟩ := by
  induction k generalizing it with
  | zero => simp [nextN]
  | succ k ih =>
    have hpos : it.pos ≠ 0 := by omega
    have hnext : it.Next = .ok ⟨it.pos - 1, it.vertP + D * S, it.texcP⟩ := by
      simp [Iterator.Next, hpos]
    have hk : k ≤ it.pos - 1 := by omega
    calc nextN (k + 1) it
        = nextN k ⟨it.pos - 1, it.vertP + D * S, it.texcP⟩ := by
          simp [nextN, hnext, Except.bind]
      _ = .ok ⟨it.pos - 1 - k, it.vertP + D * S + k * (D * S), it.texcP⟩ :=
          ih _ hk
      _ = .ok ⟨it.pos - (k + 1), it.vertP + (k + 1) * (D * S), it.texcP⟩ := by
          refine congrArg Except.ok ?_
          refine congr (congr (congrArg Iterator.mk ?_) ?_) rfl
          · omega
          · ring

/-- Inversion for `nextN`: a successful run of `k` advances determines the
resulting iterator; in particular the texture cursor is never moved. -/
theorem nextN_ok_inv {D S : Nat} (k : Nat) (it it' : Iterator D S)
    (h : nextN k it = .ok it') :
    it'.texcP = it.texcP ∧ it'.pos = it.pos - k
      ∧ it'.vertP = it.vertP + k * (D * S) ∧ k ≤ it.pos := by
  induction k generalizing it with
  | zero =>
    simp only [nextN] at h
    cases h
    simp
  | succ k ih =>
    by_cases hpos : it.pos = 0
    · simp [nextN, Iterator.Next, hpos, Except.bind] at h
    · have hnext : it.Next = .ok ⟨it.pos - 1, it.vertP + D * S, it.texcP⟩ := by
        simp [Iterator.Next, hpos]
      simp only [nextN, hnext, Except.bind] at h
      obtain ⟨h1, h2, h3, h4⟩ := ih _ h
      refine ⟨h1, by simp at h2; omega, ?_, by simp at h4; omega⟩
      simp only at h3
      rw [h3]
      ring

/-! ### Claim theorems -/

/-- C2 counterexample: for a `GeometrySet<3,3>` of size 0 the reported
texture length equals the allocated texture length (both are 0), so the
claim's consequence "for Dimension != 2 the reported texture length differs
from the allocated length" is false at size = 0. -/
theorem texc_length_cex :
    (GeometrySet.create 3 3 0 (fun _ => 0) (fun _ => 0) (fun _ => 0)).GetTexcLength
      = (GeometrySet.create 3 3 0 (fun _ => 0) (fun _ => 0) (fun _ => 0)).texcAlloc
      ∧ (3 : Nat) ≠ 2 := ⟨rfl, by decide⟩

/-- C2 (amended): `GetTexcLength()` reports `size * Dimension * Shape`
while the constructor allocates `size * 2 * Shape` texture floats; for
`Dimension ≠ 2` the two lengths differ whenever the set is nonempty
(`size ≥ 1`, and `Shape ≥ 1`, which holds for every shape arity). -/
theorem texc_length_mismatch (D S size : Nat) (i0 : Nat → Int)
    (v0 t0 : Nat → ℚ) (hD : D ≠ 2) (hS : 0 < S) (hsz : 0 < size) :
    (GeometrySet.create D S size i0 v0 t0).GetTexcLength = size * D * S
    ∧ (GeometrySet.create D S size i0 v0 t0).texcAlloc = size * 2 * S
    ∧ (GeometrySet.create D S size i0 v0 t0).GetTexcLength
        ≠ (GeometrySet.create D S size i0 v0 t0).texcAlloc := by
  refine ⟨rfl, rfl, ?_⟩
  show size * D * S ≠ size * 2 * S
  intro heq
  have h1 : size * D = size * 2 := Nat.eq_of_mul_eq_mul_right hS heq
  have h2 : D = 2 := Nat.eq_of_mul_eq_mul_left hsz h1
  exact hD h2

theorem texc_length_mismatch_witness :
    ((3 : Nat) ≠ 2 ∧ (0 : Nat) < 3 ∧ (0 : Nat) < 2)
    ∧ (GeometrySet.create 3 3 2 (fun _ => 0) (fun _ => 0) (fun _ => 0)).GetTexcLength = 18
    ∧ (GeometrySet.create 3 3 2 (fun _ => 0) (fun _ => 0) (fun _ => 0)).texcAlloc = 12
    ∧ (GeometrySet.create 3 3 2 (fun _ => 0) (fun _ => 0) (fun _ => 0)).GetTexcLength
        ≠ (GeometrySet.create 3 3 2 (fun _ => 0) (fun _ => 0) (fun _ => 0)).texcAlloc := by
  have h := texc_length_mismatch 3 3 2 (fun _ => 0) (fun _ => 0) (fun _ => 0)
    (by decide) (by decide) (by decide)
  exact ⟨⟨by decide, by decide, by decide⟩, h.1, h.2.1, h.2.2⟩

/-- C3: the loop `for (it = set.GetIterator(); it.HasMore(); it.Next())` on
a set of size `N` runs its body exactly `N` times, visiting the elements
front to back — the `k`-th body execution sees the vertex cursor at
`k * Dimension * Shape`, so each element is visited exactly once;
`HasMore()` is true exactly when `pos > 0`; every in-range `Next()`
succeeds, and after `N` advances `pos = 0`, so the loop terminates. -/
theorem iteration_visits_each_once {D S : Nat} (g : GeometrySet D S) :
    g.GetIterator.loopVisits.length = g.GetSize
    ∧ g.GetIterator.loopVisits
        = (List.range g.GetSize).map (fun k => k * (D * S))
    ∧ (∀ it : Iterator D S, it.HasMore = true ↔ 0 < it.pos)
    ∧ (∀ k : Nat, k ≤ g.GetSize →
        nextN k g.GetIterator = .ok ⟨g.GetSize - k, k * (D * S), 0⟩)
    ∧ nextN g.GetSize g.GetIterator = .ok ⟨0, g.GetSize * (D * S), 0⟩
    ∧ (∀ it : Iterator D S, 0 < it.pos → ∃ it2 : Iterator D S,
        it.Next = .ok it2 ∧ it.loopVisits = it.vertP :: it2.loopVisits) := by
  have hlen : g.GetIterator.loopVisits.length = g.GetSize :=
    loopVisitsAux_length D S g.size 0
  have heq : g.GetIterator.loopVisits
      = (List.range g.GetSize).map (fun k => k * (D * S)) := by
    simpa [Iterator.loopVisits, GeometrySet.GetIterator, GeometrySet.GetSize]
      using loopVisitsAux_eq_range D S g.size 0
  have hnext : ∀ k : Nat, k ≤ g.GetSize →
      nextN k g.GetIterator = .ok ⟨g.GetSize - k, k * (D * S), 0⟩ := by
    intro k hk
    simpa [GeometrySet.GetIterator, GeometrySet.GetSize]
      using nextN_ok k g.GetIterator hk
  refine ⟨hlen, heq, fun it => by simp [Iterator.HasMore], hnext, ?_,
    fun it hit => loopVisits_step it hit⟩
  simpa using hnext g.GetSize le_rfl


theorem iteration_visits_each_once_witness :
    (GeometrySet.create 2 3 2 (fun _ => 0) (fun _ => 0)
        (fun _ => 0)).GetIterator.loopVisits.length = 2
    ∧ (GeometrySet.create 2 3 2 (fun _ => 0) (fun _ => 0)
        (fun _ => 0)).GetIterator.loopVisits = [0, 6]
    ∧ nextN 2 (GeometrySet.create 2 3 2 (fun _ => 0) (fun _ => 0)
        (fun _ => 0)).GetIterator = .ok ⟨0, 12, 0⟩ := by
  have h := iteration_visits_each_once
    (GeometrySet.create 2 3 2 (fun _ => 0) (fun _ => 0) (fun _ => 0))
  refine ⟨h.1, ?_, ?_⟩
  · rw [h.2.1]
    rfl
  · have h2 := h.2.2.2.2.1
    simpa using h2

/-- C4: with OE_SAFE, any iterator whose `pos == 0` — the default-constructed
iterator and an iterator advanced past the last element alike — fails with
the invalid-iterator condition on dereference (and hence on every
`vert`/`texc` access) and on `Next()`.  In the source both checks precede
any mutation, so the failing operation leaves the iterator unchanged, which
the `Except`-model reflects by returning no new state. -/
theorem exhausted_iterator_fails {D S : Nat} (it : Iterator D S)
    (h : it.pos = 0) :
    it.deref = .error (.invalidIterator "Attempt to access an invalid iterator")
    ∧ it.Next
        = .error (.invalidIterator "Attempt to advance passed the end of an iterator")
    ∧ (∀ s c : Nat,
        vertRef it s c
            = .error (.invalidIterator "Attempt to access an invalid iterator")
        ∧ texcRef it s c
            = .error (.invalidIterator "Attempt to access an invalid iterator"))
    ∧ (Iterator.empty D S).pos = 0 := by
  have hderef : it.deref
      = .error (.invalidIterator "Attempt to access an invalid iterator") := by
    simp [Iterator.deref, h]
  refine ⟨hderef, by simp [Iterator.Next, h], fun s c => ⟨?_, ?_⟩, rfl⟩
  · simp only [vertRef, hderef]
    rfl
  · simp only [texcRef, hderef]
    rfl

theorem exhausted_iterator_fails_witness :
    (Iterator.empty 2 3).pos = 0
    ∧ (⟨0, 12, 0⟩ : Iterator 2 3).pos = 0
    ∧ (Iterator.empty 2 3).deref
        = .error (.invalidIterator "Attempt to access an invalid iterator")
    ∧ (⟨0, 12, 0⟩ : Iterator 2 3).Next
        = .error (.invalidIterator "Attempt to advance passed the end of an iterator")
    ∧ vertRef (Iterator.empty 2 3) 0 0
        = .error (.invalidIterator "Attempt to access an invalid iterator") :=
  ⟨rfl, rfl, (exhausted_iterator_fails (Iterator.empty 2 3) rfl).1,
    (exhausted_iterator_fails (⟨0, 12, 0⟩ : Iterator 2 3) rfl).2.1,
    ((exhausted_iterator_fails (Iterator.empty 2 3) rfl).2.2.1 0 0).1⟩

/-- C10: a GeometrySet constructed with size 0 is well-formed (all three
allocated lengths are 0) and the iterator returned by `GetIterator()` is
already exhausted: its `pos` is 0, `HasMore()` is false, and with OE_SAFE
dereference and `Next()` fail exactly as they do on a default-constructed
empty iterator. -/
theorem empty_set_iterator (D S : Nat) (i0 : Nat → Int) (v0 t0 : Nat → ℚ) :
    (GeometrySet.create D S 0 i0 v0 t0).GetSize = 0
    ∧ (GeometrySet.create D S 0 i0 v0 t0).indxAlloc = 0
    ∧ (GeometrySet.create D S 0 i0 v0 t0).vertAlloc = 0
    ∧ (GeometrySet.create D S 0 i0 v0 t0).texcAlloc = 0
    ∧ (GeometrySet.create D S 0 i0 v0 t0).GetIterator.pos = 0
    ∧ (GeometrySet.create D S 0 i0 v0 t0).GetIterator.HasMore = false
    ∧ (GeometrySet.create D S 0 i0 v0 t0).GetIterator.deref
        = (Iterator.empty D S).deref
    ∧ (GeometrySet.create D S 0 i0 v0 t0).GetIterator.deref
        = .error (.invalidIterator "Attempt to access an invalid iterator")
    ∧ (GeometrySet.create D S 0 i0 v0 t0).GetIterator.Next
        = (Iterator.empty D S).Next
    ∧ (GeometrySet.create D S 0 i0 v0 t0).GetIterator.Next
        = .error (.invalidIterator "Attempt to advance passed the end of an iterator") := by
  refine ⟨rfl, rfl, by simp [GeometrySet.create], by simp [GeometrySet.create],
    rfl, rfl, rfl, rfl, rfl, rfl⟩

/-- C1: for every iterator with `pos > 0`, `Next()` decrements `pos` by one
and advances only the vertex cursor, by `Dimension * Shape` floats; the
texture cursor is exactly the one bound at iterator construction and is
unchanged by every call to `Next()` — so after any number of successful
advances from `GetIterator`, `texc` accesses still resolve to offsets
`s*2 + c < 2*Shape` inside element 0's texture data. -/
theorem next_advances_vertex_only {D S : Nat} (it : Iterator D S)
    (h : 0 < it.pos) :
    it.Next = .ok ⟨it.pos - 1, it.vertP + D * S, it.texcP⟩
    ∧ ∀ (g : GeometrySet D S) (k : Nat) (it' : Iterator D S),
        nextN k g.GetIterator = .ok it' →
          it'.texcP = g.GetIterator.texcP
          ∧ (0 < it'.pos → ∀ s c : Nat, s < S → c < 2 →
              texcRef it' s c = .ok (s * 2 + c) ∧ s * 2 + c < 2 * S) := by
  constructor
  · simp [Iterator.Next, Nat.pos_iff_ne_zero.mp h]
  · intro g k it' hk
    have htex : it'.texcP = 0 := by
      have := (nextN_ok_inv k g.GetIterator it' hk).1
      simpa [GeometrySet.GetIterator] using this
    refine ⟨by simp [htex, GeometrySet.GetIterator], ?_⟩
    intro hpos s c hs hc
    refine ⟨?_, by omega⟩
    rw [texcRef_ok it' (by omega) s c hs hc, htex]
    norm_num

theorem next_advances_vertex_only_witness :
    0 < (⟨2, 0, 0⟩ : Iterator 2 3).pos
    ∧ (⟨2, 0, 0⟩ : Iterator 2 3).Next = .ok ⟨1, 6, 0⟩ := by
  refine ⟨by decide, ?_⟩
  have h := (next_advances_vertex_only (D := 2) (S := 3) ⟨2, 0, 0⟩ (by decide)).1
  simpa using h

/-- C6: with OE_SAFE every bounds check fires exactly when its index is
outside the declared bound, reporting the offending index and the valid
range `[0, bound)`: `Vector<N,T>::operator[]` errors with
`IndexOutOfBounds(i,0,N)` iff `i < 0 || i >= N`; on a valid iterator the
sub-point index is checked against `Shape`, the `vert` component index
against `Dimension` and the `texc` component index against 2; in
particular `texc[0][2]` always fails with `IndexOutOfBounds(2,0,2)`
regardless of `Dimension`. -/
theorem bounds_checks_exact {N : Nat} {T : Type} (v : Vec N T) (i : Int)
    {D S : Nat} (it : Iterator D S) (hpos : 0 < it.pos) (s c : Nat) :
    (vecGet v i = .error (.indexOutOfBounds i 0 N) ↔ i < 0 ∨ (N : Int) ≤ i)
    ∧ (¬(i < 0 ∨ (N : Int) ≤ i) → ∃ x : T, vecGet v i = .ok x)
    ∧ (S ≤ s → vertRef it s c = .error (.indexOutOfBounds s 0 S)
        ∧ texcRef it s c = .error (.indexOutOfBounds s 0 S))
    ∧ (s < S → D ≤ c → vertRef it s c = .error (.indexOutOfBounds c 0 D))
    ∧ (s < S → c < D → vertRef it s c = .ok (it.vertP + s * D + c))
    ∧ (s < S → 2 ≤ c → texcRef it s c = .error (.indexOutOfBounds c 0 2))
    ∧ (s < S → c < 2 → texcRef it s c = .ok (it.texcP + s * 2 + c))
    ∧ (0 < S → texcRef it 0 2 = .error (.indexOutOfBounds 2 0 2)) := by
  have hne : it.pos ≠ 0 := by omega
  refine ⟨?_, ?_, ?_, ?_, ?_, ?_, ?_, ?_⟩
  · constructor
    · intro herr
      by_contra hin
      simp [vecGet, hin] at herr
    · intro hout
      simp [vecGet, hout]
  · intro hin
    refine ⟨v ⟨i.toNat, by omega⟩, ?_⟩
    simp [vecGet, hin]
  · intro hsle
    constructor
    · simp [vertRef, deref_ok it hne, acc2Sub, hsle]
    · simp [texcRef, deref_ok it hne, acc2Sub, hsle]
  · intro hs hcle
    simp [vertRef, deref_ok it hne, acc2Sub, acc1Sub, Nat.not_le.mpr hs, hcle]
  · intro hs hc
    exact vertRef_ok it hne s c hs hc
  · intro hs hcle
    simp [texcRef, deref_ok it hne, acc2Sub, acc1Sub, Nat.not_le.mpr hs, hcle]
  · intro hs hc
    exact texcRef_ok it hne s c hs hc
  · intro hS
    simp [texcRef, deref_ok it hne, acc2Sub, acc1Sub, Nat.not_le.mpr hS]

theorem bounds_checks_exact_witness :
    vecGet (fun i => ((i : Nat) : ℚ) + 1 : Vec 3 ℚ) 5
        = .error (.indexOutOfBounds 5 0 3)
    ∧ vecGet (fun i => ((i : Nat) : ℚ) + 1 : Vec 3 ℚ) (-1)
        = .error (.indexOutOfBounds (-1) 0 3)
    ∧ vertRef (⟨1, 0, 0⟩ : Iterator 3 3) 3 0
        = .error (.indexOutOfBounds 3 0 3)
    ∧ vertRef (⟨1, 0, 0⟩ : Iterator 3 3) 0 3
        = .error (.indexOutOfBounds 3 0 3)
    ∧ vertRef (⟨1, 0, 0⟩ : Iterator 3 3) 1 2 = .ok 5
    ∧ texcRef (⟨1, 0, 0⟩ : Iterator 3 3) 0 2
        = .error (.indexOutOfBounds 2 0 2) := by
  have h5 := bounds_checks_exact (fun i => ((i : Nat) : ℚ) + 1 : Vec 3 ℚ) 5
    (⟨1, 0, 0⟩ : Iterator 3 3) (by decide) 3 0
  have hm1 := bounds_checks_exact (fun i => ((i : Nat) : ℚ) + 1 : Vec 3 ℚ) (-1)
    (⟨1, 0, 0⟩ : Iterator 3 3) (by decide) 0 3
  have h12 := bounds_checks_exact (fun i => ((i : Nat) : ℚ) + 1 : Vec 3 ℚ) 5
    (⟨1, 0, 0⟩ : Iterator 3 3) (by decide) 1 2
  refine ⟨h5.1.mpr (by decide), hm1.1.mpr (by decide),
    (h5.2.2.1 (by decide)).1, hm1.2.2.2.1 (by decide) (by decide), ?_,
    h12.2.2.2.2.2.2.2 (by decide)⟩
  have := h12.2.2.2.2.1 (by decide) (by decide)
  simpa using this


/-- C8: with OE_SAFE, `Normalize()` on a vector of zero length fails with
the ArithmeticException condition — and since the check precedes the
component loop, the vector is left unchanged; on a vector of nonzero
length it divides each nonzero component by the Euclidean length and
leaves components that are exactly zero unchanged at zero. -/
theorem normalize_spec {N : Nat} (v : Vec N ℝ) :
    (GetLength v = 0 →
      Normalize v = .error (.arithmeticException "Can not normalize the zero vector."))
    ∧ (GetLength v ≠ 0 → ∃ w : Vec N ℝ, Normalize v = .ok w
        ∧ (∀ i, v i = 0 → w i = 0)
        ∧ (∀ i, v i ≠ 0 → w i = v i / GetLength v)) := by
  constructor
  · intro h
    simp [Normalize, h]
  · intro h
    refine ⟨fun i => if v i = 0 then v i else v i / GetLength v, ?_, ?_, ?_⟩
    · simp [Normalize, h]
    · intro i hi
      simp [hi]
    · intro i hi
      simp [hi]

theorem normalize_spec_witness :
    (GetLength (fun _ => 0 : Vec 2 ℝ) = 0
      ∧ Normalize (fun _ => 0 : Vec 2 ℝ)
          = .error (.arithmeticException "Can not normalize the zero vector."))
    ∧ (GetLength (![3, 4] : Vec 2 ℝ) ≠ 0
      ∧ ∃ w : Vec 2 ℝ, Normalize (![3, 4] : Vec 2 ℝ) = .ok w
          ∧ (∀ i, (![3, 4] : Vec 2 ℝ) i = 0 → w i = 0)
          ∧ (∀ i, (![3, 4] : Vec 2 ℝ) i ≠ 0 →
              w i = (![3, 4] : Vec 2 ℝ) i / GetLength (![3, 4] : Vec 2 ℝ))) := by
  have h0 : GetLength (fun _ => 0 : Vec 2 ℝ) = 0 := by
    simp [GetLength, dotProd]
  have hdot : dotProd (![3, 4] : Vec 2 ℝ) ![3, 4] = 25 := by
    simp [dotProd, Fin.sum_univ_two]
    norm_num
  have h1 : GetLength (![3, 4] : Vec 2 ℝ) ≠ 0 := by
    rw [GetLength, hdot]
    exact ne_of_gt (Real.sqrt_pos.mpr (by norm_num))
  exact ⟨⟨h0, (normalize_spec _).1 h0⟩, ⟨h1, (normalize_spec _).2 h1⟩⟩

/-- C9: with OE_SAFE, both scalar-division forms fail with the
DivisionByZero condition exactly when the divisor is zero; for a nonzero
divisor `s` the pure form returns a fresh `Vector<N,float>` whose `i`-th
component is the `i`-th component (cast to float — the identity in the ℚ
model) divided by `s`, the receiver being passed by value and hence
untouched, and the destructive form updates every component to its
quotient. -/
theorem division_by_zero_exact {N : Nat} (v : Vec N ℚ) (s : ℚ) :
    (vecDiv v s = .error .divisionByZero ↔ s = 0)
    ∧ (vecDivAssign v s = .error .divisionByZero ↔ s = 0)
    ∧ (s ≠ 0 → vecDiv v s = .ok fun i => v i / s)
    ∧ (s ≠ 0 → vecDivAssign v s = .ok fun i => v i / s) := by
  by_cases h : s = 0 <;>
    simp [vecDiv, vecDivAssign, h]

theorem division_by_zero_exact_witness :
    vecDiv (fun _ => 3 : Vec 2 ℚ) 0 = .error .divisionByZero
    ∧ vecDivAssign (fun _ => 3 : Vec 2 ℚ) 0 = .error .divisionByZero
    ∧ ((2 : ℚ) ≠ 0 ∧ vecDiv (fun _ => 3 : Vec 2 ℚ) 2 = .ok fun _ => 3 / 2) := by
  have h0 := division_by_zero_exact (fun _ => 3 : Vec 2 ℚ) 0
  have h2 := division_by_zero_exact (fun _ => 3 : Vec 2 ℚ) 2
  refine ⟨h0.1.mpr rfl, h0.2.1.mpr rfl, by norm_num, ?_⟩
  have := h2.2.2.1 (by norm_num)
  simpa using this


/-- C5: in the `GeometrySet<2,3>` size-2 scenario, writing vert[0]=(1,2),
vert[1]=(3,4), vert[2]=(5,6) through a fresh iterator makes the raw vertex
buffer's first six slots read exactly [1,2,3,4,5,6]; after one `Next()`,
writing vert[0]=(6,5), vert[1]=(4,3), vert[2]=(2,1) makes slots 6..11 read
[6,5,4,3,2,1] while slots 0..5 are unchanged.  In general `vert[s][c]` on a
valid iterator addresses the flat vertex-buffer offset
`vertP + s*Dimension + c`, and the cursor of the `e`-times advanced fresh
iterator is `vertP = e*Dimension*Shape`. -/
theorem vertex_write_scenario (i0 : Nat → Int) (v0 t0 : Nat → ℚ) :
    (scenario2x3 i0 v0 t0).map
        (fun r => (r.1 0, r.1 1, r.1 2, r.1 3, r.1 4, r.1 5))
      = .ok (1, 2, 3, 4, 5, 6)
    ∧ (scenario2x3 i0 v0 t0).map
        (fun r => (r.2 6, r.2 7, r.2 8, r.2 9, r.2 10, r.2 11))
      = .ok (6, 5, 4, 3, 2, 1)
    ∧ (scenario2x3 i0 v0 t0).map
        (fun r => (r.2 0, r.2 1, r.2 2, r.2 3, r.2 4, r.2 5))
      = (scenario2x3 i0 v0 t0).map
        (fun r => (r.1 0, r.1 1, r.1 2, r.1 3, r.1 4, r.1 5))
    ∧ (∀ (D S : Nat) (it : Iterator D S), 0 < it.pos →
        ∀ s c : Nat, s < S → c < D →
          vertRef it s c = .ok (it.vertP + s * D + c))
    ∧ (∀ (D S : Nat) (g : GeometrySet D S) (e : Nat) (it : Iterator D S),
        nextN e g.GetIterator = .ok it → it.vertP = e * (D * S)) := by
  refine ⟨rfl, rfl, rfl, ?_, ?_⟩
  · intro D S it hpos s c hs hc
    exact vertRef_ok it (by omega) s c hs hc
  · intro D S g e it h
    have := (nextN_ok_inv e g.GetIterator it h).2.2.1
    simpa [GeometrySet.GetIterator] using this

theorem vertex_write_scenario_witness :
    (scenario2x3 (fun _ => 0) (fun _ => 0) (fun _ => 0)).map
        (fun r => (r.1 0, r.1 1, r.1 2, r.1 3, r.1 4, r.1 5))
      = .ok (1, 2, 3, 4, 5, 6)
    ∧ (scenario2x3 (fun _ => 0) (fun _ => 0) (fun _ => 0)).map
        (fun r => (r.2 6, r.2 7, r.2 8, r.2 9, r.2 10, r.2 11))
      = .ok (6, 5, 4, 3, 2, 1)
    ∧ vertRef (⟨2, 0, 0⟩ : Iterator 2 3) 1 1 = .ok 3 := by
  have h := vertex_write_scenario (fun _ => 0) (fun _ => 0) (fun _ => 0)
  refine ⟨h.1, h.2.1, ?_⟩
  have := h.2.2.2.1 2 3 ⟨2, 0, 0⟩ (by decide) 1 1 (by decide) (by decide)
  simpa using this

/-- C7 counterexample: for Dimension = 2 the sub-point assignment does not
copy 3 components: with OE_SAFE, `v.Get(2)` on the 2-component source
vector throws `IndexOutOfBounds(2,0,2)` after only components 0 and 1 have
been written into the buffer (slot 2 is untouched). -/
theorem subpoint_assign_dim2_cex :
    dim2Assign.2 = some (.indexOutOfBounds 2 0 2)
    ∧ dim2Assign.1.vert 0 = 10
    ∧ dim2Assign.1.vert 1 = 20
    ∧ dim2Assign.1.vert 2 = 0 :=
  ⟨rfl, rfl, rfl, rfl⟩

/-- C7 (amended): for Dimension ≥ 3 (in the design space, Dimension == 3)
the sub-point assignment `elm->vert[s] = v` copies exactly three
components — `v`'s components 0, 1, 2 positionally to offsets 0, 1, 2 from
the sub-point's base — succeeds, and changes no other buffer slot; for
Dimension = 2 it instead writes components 0 and 1 and then fails with
`IndexOutOfBounds(2,0,2)` (see the counterexample). -/
theorem subpoint_assign_copies_three {D S : Nat} (hD : 3 ≤ D)
    (g : GeometrySet D S) (it : Iterator D S) (hpos : 0 < it.pos)
    (s : Nat) (hs : s < S) (v : Vec D ℚ) :
    (vertSubAssign g it s v).2 = none
    ∧ (vertSubAssign g it s v).1.vert (it.vertP + s * D) = v ⟨0, by omega⟩
    ∧ (vertSubAssign g it s v).1.vert (it.vertP + s * D + 1) = v ⟨1, by omega⟩
    ∧ (vertSubAssign g it s v).1.vert (it.vertP + s * D + 2) = v ⟨2, by omega⟩
    ∧ ∀ j : Nat, j ≠ it.vertP + s * D → j ≠ it.vertP + s * D + 1 →
        j ≠ it.vertP + s * D + 2 →
          (vertSubAssign g it s v).1.vert j = g.vert j := by
  have hne : it.pos ≠ 0 := by omega
  have h0 : vecGet v 0 = .ok (v ⟨0, by omega⟩) := by
    simp only [vecGet]
    rw [dif_neg (by omega)]
    rfl
  have h1 : vecGet v 1 = .ok (v ⟨1, by omega⟩) := by
    simp only [vecGet]
    rw [dif_neg (by omega)]
    rfl
  have h2 : vecGet v 2 = .ok (v ⟨2, by omega⟩) := by
    simp only [vecGet]
    rw [dif_neg (by omega)]
    rfl
  have hacc : acc2Sub S D it.vertP s = .ok (it.vertP + s * D) := by
    simp [acc2Sub, Nat.not_le.mpr hs]
  simp only [vertSubAssign, deref_ok it hne, hacc, acc1Assign, h0, h1, h2]
  refine ⟨trivial, ?_, ?_, ?_, ?_⟩
  · rw [Function.update_noteq (by omega), Function.update_noteq (by omega),
      Function.update_same]
  · rw [Function.update_noteq (by omega), Function.update_same]
  · rw [Function.update_same]
  · intro j hj0 hj1 hj2
    rw [Function.update_noteq hj2, Function.update_noteq hj1,
      Function.update_noteq hj0]

theorem subpoint_assign_copies_three_witness :
    ((3 : Nat) ≤ 3
      ∧ 0 < (GeometrySet.create 3 1 1 (fun _ => 0) (fun _ => 0)
          (fun _ => 0)).GetIterator.pos
      ∧ (0 : Nat) < 1)
    ∧ (vertSubAssign (GeometrySet.create 3 1 1 (fun _ => 0) (fun _ => 0) (fun _ => 0))
        (GeometrySet.create 3 1 1 (fun _ => 0) (fun _ => 0) (fun _ => 0)).GetIterator
        0 ![7, 8, 9]).2 = none
    ∧ (vertSubAssign (GeometrySet.create 3 1 1 (fun _ => 0) (fun _ => 0) (fun _ => 0))
        (GeometrySet.create 3 1 1 (fun _ => 0) (fun _ => 0) (fun _ => 0)).GetIterator
        0 ![7, 8, 9]).1.vert 0 = 7
    ∧ (vertSubAssign (GeometrySet.create 3 1 1 (fun _ => 0) (fun _ => 0) (fun _ => 0))
        (GeometrySet.create 3 1 1 (fun _ => 0) (fun _ => 0) (fun _ => 0)).GetIterator
        0 ![7, 8, 9]).1.vert 1 = 8
    ∧ (vertSubAssign (GeometrySet.create 3 1 1 (fun _ => 0) (fun _ => 0) (fun _ => 0))
        (GeometrySet.create 3 1 1 (fun _ => 0) (fun _ => 0) (fun _ => 0)).GetIterator
        0 ![7, 8, 9]).1.vert 2 = 9 := by
  have h := subpoint_assign_copies_three (D := 3) (S := 1) (by decide)
    (GeometrySet.create 3 1 1 (fun _ => 0) (fun _ => 0) (fun _ => 0))
    (GeometrySet.create 3 1 1 (fun _ => 0) (fun _ => 0) (fun _ => 0)).GetIterator
    (by decide) 0 (by decide) ![7, 8, 9]
  refine ⟨⟨by decide, by decide, by decide⟩, h.1, ?_, ?_, ?_⟩
  · have := h.2.1
    simpa using this
  · have := h.2.2.1
    simpa using this
  · have := h.2.2.2.1
    simpa using this


end Geometry

end OpenEngine
